import Mathlib

/-!
Shallow embedding of the configuration subsystem in
src/src/common/config.rs of the Pump-Fun sniper/copy-trading bot.

Conventions of the embedding:
* the process environment is a partial map from variable names to strings;
* Rust u64 / u8 are Nat values bounded by the width where the source parses
  them; i32 is Int bounded likewise; f64 is modelled as an exact rational
  (the source only compares and copies these values, it never does float
  arithmetic on them except a display-only scaling, so the exact-decimal
  model is faithful for every finite decimal input; float infinities, NaN
  and rounding are outside the model);
* Rust standard string-to-number conversion is modelled on the decimal and
  exponent literal forms; character classes are modelled on ASCII, which is
  what every default and every value the checks compare against uses;
* fallible Rust functions returning Result are modelled with Except.
-/

/-- The process environment: a variable either has a string value or is unset. -/
abbrev Env : Type := String → Option String

/-- The environment with no variable set. -/
def emptyEnv : Env := fun _ => none

/-- The environment where exactly one variable is set. -/
def env1 (key val : String) : Env := fun k => if k = key then some val else none

/-- ASCII digit test (model of char::is_ascii_digit, which Rust number parsing uses). -/
def isDigitChar (c : Char) : Bool := decide (48 ≤ c.toNat) && decide (c.toNat ≤ 57)

/-- Value of an ASCII digit. -/
def digitVal (c : Char) : Nat := c.toNat - 48

/-- Value of a digit string, most significant first. -/
def digitsToNat (cs : List Char) : Nat := cs.foldl (fun n c => 10 * n + digitVal c) 0

/-- A nonempty all-digit character run converts to a Nat; anything else fails.
This is the digit-run core shared by the Rust integer conversions. -/
def parseNatDigits (cs : List Char) : Option Nat :=
  if cs.isEmpty then none
  else if cs.all isDigitChar then some (digitsToNat cs) else none

/-- Model of str::parse::<u64>: optional leading plus sign, then a nonempty
digit run; overflow past 2^64 - 1 is an error, never a wrap. -/
def parseU64Str (s : String) : Option Nat :=
  let cs :=
    match s.data with
    | '+' :: rest => rest
    | cs => cs
  (parseNatDigits cs).bind (fun n => if n < 2 ^ 64 then some n else none)

/-- Model of str::parse::<u8>: as u64 but bounded by 2^8 - 1. -/
def parseU8Str (s : String) : Option Nat :=
  let cs :=
    match s.data with
    | '+' :: rest => rest
    | cs => cs
  (parseNatDigits cs).bind (fun n => if n < 2 ^ 8 then some n else none)

/-- Model of str::parse::<i32>: optional sign, nonempty digit run, two's
complement i32 range. -/
def parseI32Str (s : String) : Option Int :=
  match s.data with
  | '+' :: rest => (parseNatDigits rest).bind (fun n => if n ≤ 2 ^ 31 - 1 then some (n : Int) else none)
  | '-' :: rest => (parseNatDigits rest).bind (fun n => if n ≤ 2 ^ 31 then some (-(n : Int)) else none)
  | cs => (parseNatDigits cs).bind (fun n => if n ≤ 2 ^ 31 - 1 then some (n : Int) else none)

/-- Model of str::parse::<bool>: exactly the strings true and false. -/
def parseBoolStr (s : String) : Option Bool :=
  if s = "true" then some true else if s = "false" then some false else none

/-- Exponent tail of a float literal: optional sign then a nonempty digit run,
scaling the mantissa num/den by a power of ten. -/
def parseExpPart (num : Int) (den : Nat) (r : List Char) : Option ℚ :=
  let (eneg, r2) :=
    match r with
    | '+' :: t => (false, t)
    | '-' :: t => (true, t)
    | _ => (false, r)
  (parseNatDigits r2).map (fun e =>
    if eneg then mkRat num (den * 10 ^ e) else mkRat (num * 10 ^ e) den)

/-- Model of str::parse::<f64> on finite decimal literals: optional sign,
digits with an optional decimal point (at least one digit overall), and an
optional exponent.  The value is kept exact as a rational. -/
def parseF64Str (s : String) : Option ℚ :=
  let (neg, cs0) :=
    match s.data with
    | '+' :: rest => (false, rest)
    | '-' :: rest => (true, rest)
    | cs => (false, cs)
  let ip := cs0.takeWhile isDigitChar
  let rest1 := cs0.dropWhile isDigitChar
  let (fp, rest2) :=
    match rest1 with
    | '.' :: r => (r.takeWhile isDigitChar, r.dropWhile isDigitChar)
    | _ => (([] : List Char), rest1)
  if ip.isEmpty && fp.isEmpty then none
  else
    let m : Nat := digitsToNat (ip ++ fp)
    let num : Int := if neg then -(m : Int) else (m : Int)
    let den : Nat := 10 ^ fp.length
    match rest2 with
    | [] => some (mkRat num den)
    | 'e' :: r => parseExpPart num den r
    | 'E' :: r => parseExpPart num den r
    | _ => none

/-- Occurrences of a character in a character list (model of str::matches count). -/
def countChar (c : Char) : List Char → Nat
  | [] => 0
  | x :: xs => (if x = c then 1 else 0) + countChar c xs

/-- Split a character list at every occurrence of a separator character
(model of str::split with a char pattern). -/
def splitOnChar (c : Char) : List Char → List (List Char)
  | [] => [[]]
  | x :: xs =>
    if x = c then [] :: splitOnChar c xs
    else
      match splitOnChar c xs with
      | h :: t => (x :: h) :: t
      | [] => [[x]]

/-- ASCII whitespace test (the fragment of Rust char::is_whitespace the
wallet-list values exercise). -/
def isSpaceChar (c : Char) : Bool := c == ' ' || c == '\t' || c == '\n' || c == '\r'

/-- Model of str::trim: strip leading and trailing whitespace. -/
def rustTrim (s : String) : String :=
  String.mk (((s.data.dropWhile isSpaceChar).reverse.dropWhile isSpaceChar).reverse)

/-- The configuration error type (enum ConfigError), restricted to the
variants the configuration pipeline constructs. -/
inductive ConfigError where
  | invalidThresholds (buy sell : Nat)
  | invalidPercentage (field : String) (value : ℚ)
  | invalidTimeFormat (time : String)
  | invalidWalletAddress (address : String)
  | validationError (part msg : String)
deriving DecidableEq

deriving instance DecidableEq for Except

/-- struct BasicTradingConfig: basic trading settings (12 fields). -/
structure BasicTradingConfig where
  threshold_sell : Nat
  threshold_buy : Nat
  max_wait_time : Nat
  private_key : String
  rpc_http : String
  rpc_wss : String
  time_exceed : Nat
  token_amount : Nat
  unit_price : ℚ
  unit_limit : Nat
  downing_percent : ℚ
  sell_all_tokens : Bool
deriving DecidableEq

/-- impl Default for BasicTradingConfig. -/
def BasicTradingConfig.default : BasicTradingConfig :=
  { threshold_sell := 10000000000
    threshold_buy := 3000000000
    max_wait_time := 650000
    private_key := ""
    rpc_http := "https://api.mainnet-beta.solana.com"
    rpc_wss := "wss://api.mainnet-beta.solana.com"
    time_exceed := 30
    token_amount := 1000000
    unit_price := mkRat 1 1000
    unit_limit := 1000
    downing_percent := 50
    sell_all_tokens := false }

/-- struct JitoConfig (4 fields). -/
structure JitoConfig where
  block_engine_url : String
  priority_fee : Nat
  tip_value : Nat
  use_jito : Bool
deriving DecidableEq

/-- impl Default for JitoConfig. -/
def JitoConfig.default : JitoConfig :=
  { block_engine_url := ""
    priority_fee := 1000
    tip_value := 1000
    use_jito := false }

/-- struct ZeroSlotConfig (2 fields). -/
structure ZeroSlotConfig where
  url : String
  tip_value : Nat
deriving DecidableEq

/-- impl Default for ZeroSlotConfig. -/
def ZeroSlotConfig.default : ZeroSlotConfig :=
  { url := "", tip_value := 1000 }

/-- struct NozomiConfig (2 fields). -/
structure NozomiConfig where
  url : String
  tip_value : Nat
deriving DecidableEq

/-- impl Default for NozomiConfig. -/
def NozomiConfig.default : NozomiConfig :=
  { url := "", tip_value := 1000 }

/-- struct BloxRouteConfig (4 fields). -/
structure BloxRouteConfig where
  network : String
  region : String
  auth_header : String
  tip_value : Nat
deriving DecidableEq

/-- impl Default for BloxRouteConfig. -/
def BloxRouteConfig.default : BloxRouteConfig :=
  { network := "mainnet"
    region := "us-east"
    auth_header := ""
    tip_value := 1000 }

/-- struct AdvancedFilterSettings (14 fields). -/
structure AdvancedFilterSettings where
  min_market_cap : ℚ
  max_market_cap : ℚ
  market_cap_enabled : Bool
  min_volume : ℚ
  max_volume : ℚ
  volume_enabled : Bool
  min_number_of_buy_sell : Int
  max_number_of_buy_sell : Int
  buy_sell_count_enabled : Bool
  sol_invested : ℚ
  sol_invested_enabled : Bool
  min_launcher_sol_balance : ℚ
  max_launcher_sol_balance : ℚ
  launcher_sol_enabled : Bool
  dev_buy_enabled : Bool
deriving DecidableEq

/-- impl Default for AdvancedFilterSettings. -/
def AdvancedFilterSettings.default : AdvancedFilterSettings :=
  { min_market_cap := 8
    max_market_cap := 15
    market_cap_enabled := true
    min_volume := 5
    max_volume := 12
    volume_enabled := true
    min_number_of_buy_sell := 50
    max_number_of_buy_sell := 2000
    buy_sell_count_enabled := true
    sol_invested := 1
    sol_invested_enabled := true
    min_launcher_sol_balance := 0
    max_launcher_sol_balance := 1
    launcher_sol_enabled := true
    dev_buy_enabled := true }

/-- struct CopyTradingConfig (6 fields). -/
structure CopyTradingConfig where
  enabled : Bool
  buy_sell_percent : ℚ
  target_wallets : List String
  multi_target_mode : Bool
  mc_threshold_to_buy : ℚ
  mc_threshold_to_follow : ℚ
deriving DecidableEq

/-- impl Default for CopyTradingConfig. -/
def CopyTradingConfig.default : CopyTradingConfig :=
  { enabled := false
    buy_sell_percent := 100
    target_wallets := []
    multi_target_mode := false
    mc_threshold_to_buy := 1000000
    mc_threshold_to_follow := 500000 }

/-- struct PrivateLogicConfig (15 fields). -/
structure PrivateLogicConfig where
  enabled : Bool
  stage_1_percent : ℚ
  stage_1_delay : Nat
  stage_2_percent : ℚ
  stage_2_delay : Nat
  stage_3_percent : ℚ
  stage_3_delay : Nat
  stage_4_percent : ℚ
  stage_4_delay : Nat
  stage_5_percent : ℚ
  stage_5_delay : Nat
  stage_6_percent : ℚ
  stage_6_delay : Nat
  stage_7_percent : ℚ
  stage_7_delay : Nat
deriving DecidableEq

/-- impl Default for PrivateLogicConfig. -/
def PrivateLogicConfig.default : PrivateLogicConfig :=
  { enabled := false
    stage_1_percent := 10
    stage_1_delay := 1000
    stage_2_percent := 20
    stage_2_delay := 2000
    stage_3_percent := 30
    stage_3_delay := 3000
    stage_4_percent := 40
    stage_4_delay := 4000
    stage_5_percent := 50
    stage_5_delay := 5000
    stage_6_percent := 60
    stage_6_delay := 6000
    stage_7_percent := 70
    stage_7_delay := 7000 }

/-- struct InverseBuyConfig (2 fields). -/
structure InverseBuyConfig where
  enabled : Bool
  buy_amount : ℚ
deriving DecidableEq

/-- impl Default for InverseBuyConfig. -/
def InverseBuyConfig.default : InverseBuyConfig :=
  { enabled := false, buy_amount := mkRat 1 10 }

/-- struct TimerConfig (4 fields). -/
structure TimerConfig where
  enabled : Bool
  start_time : String
  stop_time : String
  auto_sell_on_stop : Bool
deriving DecidableEq

/-- impl Default for TimerConfig. -/
def TimerConfig.default : TimerConfig :=
  { enabled := false
    start_time := "00:00"
    stop_time := "23:59"
    auto_sell_on_stop := false }

/-- struct ModeConfig (3 fields). -/
structure ModeConfig where
  simulation_mode : Bool
  live_mode : Bool
  paper_trading : Bool
deriving DecidableEq

/-- impl Default for ModeConfig. -/
def ModeConfig.default : ModeConfig :=
  { simulation_mode := false, live_mode := true, paper_trading := false }

/-- struct AdvancedConfig (8 fields). -/
structure AdvancedConfig where
  limit_wait_time : Nat
  limit_buy_amount_in_limit_wait_time : ℚ
  review_cycle_duration : Nat
  time_delta_threshold : Nat
  price_delta_threshold : ℚ
  min_buy_confidence : ℚ
  min_sell_confidence : ℚ
  daily_buy_budget : ℚ
deriving DecidableEq

/-- impl Default for AdvancedConfig. -/
def AdvancedConfig.default : AdvancedConfig :=
  { limit_wait_time := 30000
    limit_buy_amount_in_limit_wait_time := mkRat 1 2
    review_cycle_duration := 120000
    time_delta_threshold := 300
    price_delta_threshold := 5
    min_buy_confidence := mkRat 7 10
    min_sell_confidence := mkRat 6 10
    daily_buy_budget := 10 }

/-- fn parse_u64_env: look the key up, empty string when unset, convert,
fall back to the default when conversion fails. -/
def parse_u64_env (env : Env) (key : String) (default : Nat) : Nat :=
  (parseU64Str ((env key).getD "")).getD default

/-- fn parse_f64_env: same contract at f64. -/
def parse_f64_env (env : Env) (key : String) (default : ℚ) : ℚ :=
  (parseF64Str ((env key).getD "")).getD default

/-- fn parse_i32_env: same contract at i32. -/
def parse_i32_env (env : Env) (key : String) (default : Int) : Int :=
  (parseI32Str ((env key).getD "")).getD default

/-- fn parse_bool_env: same contract at bool. -/
def parse_bool_env (env : Env) (key : String) (default : Bool) : Bool :=
  (parseBoolStr ((env key).getD "")).getD default

/-- fn parse_f64_env_with_validation: parse with fallback, then reject a value
outside the closed interval with a typed error instead of clamping. -/
def parse_f64_env_with_validation (env : Env) (key : String) (default min max : ℚ) :
    Except ConfigError ℚ :=
  let value := parse_f64_env env key default
  if value < min ∨ max < value then Except.error (ConfigError.invalidPercentage key value)
  else Except.ok value

/-- Result::unwrap_or. -/
def unwrapOr {ε α : Type} (r : Except ε α) (default : α) : α :=
  match r with
  | Except.ok v => v
  | Except.error _ => default

/-- Config::is_valid_time_format: exactly one colon, both parts convert as u8,
hours at most 23 and minutes at most 59. -/
def Config.is_valid_time_format (time_str : String) : Bool :=
  if ¬ (time_str.data.contains ':') ∨ countChar ':' time_str.data ≠ 1 then false
  else
    let parts := (splitOnChar ':' time_str.data).map String.mk
    if parts.length ≠ 2 then false
    else
      match parseU8Str (parts.getD 0 ""), parseU8Str (parts.getD 1 "") with
      | some hours, some minutes => decide (hours ≤ 23) && decide (minutes ≤ 59)
      | _, _ => false

/-- fn parse_time_format_env: look the key up with the default as fallback,
then reject a string that fails the time-format check. -/
def parse_time_format_env (env : Env) (key : String) (default : String) :
    Except ConfigError String :=
  let time_str := (env key).getD default
  if ¬ Config.is_valid_time_format time_str then
    Except.error (ConfigError.invalidTimeFormat time_str)
  else Except.ok time_str

/-- fn is_valid_wallet_address: length 32 to 44, alphanumeric characters only
(ASCII model; byte length and character count agree on such strings). -/
def is_valid_wallet_address (address : String) : Bool :=
  decide (32 ≤ address.data.length) && decide (address.data.length ≤ 44) &&
    address.data.all (fun c =>
      isDigitChar c || (decide (65 ≤ c.toNat) && decide (c.toNat ≤ 90)) ||
        (decide (97 ≤ c.toNat) && decide (c.toNat ≤ 122)))

/-- Config::load_basic_trading_settings. -/
def load_basic_trading_settings (env : Env) : BasicTradingConfig :=
  { threshold_sell := parse_u64_env env "THRESHOLD_SELL" BasicTradingConfig.default.threshold_sell
    threshold_buy := parse_u64_env env "THRESHOLD_BUY" BasicTradingConfig.default.threshold_buy
    max_wait_time := parse_u64_env env "MAX_WAIT_TIME" BasicTradingConfig.default.max_wait_time
    private_key := (env "PRIVATE_KEY").getD ""
    rpc_http := (env "RPC_HTTP").getD BasicTradingConfig.default.rpc_http
    rpc_wss := (env "RPC_WSS").getD BasicTradingConfig.default.rpc_wss
    time_exceed := parse_u64_env env "TIME_EXCEED" BasicTradingConfig.default.time_exceed
    token_amount := parse_u64_env env "TOKEN_AMOUNT" BasicTradingConfig.default.token_amount
    unit_price := parse_f64_env env "UNIT_PRICE" BasicTradingConfig.default.unit_price
    unit_limit := parse_u64_env env "UNIT_LIMIT" BasicTradingConfig.default.unit_limit
    downing_percent := parse_f64_env env "DOWNING_PERCENT" BasicTradingConfig.default.downing_percent
    sell_all_tokens := parse_bool_env env "SELL_ALL_TOKENS" BasicTradingConfig.default.sell_all_tokens }

/-- Config::load_jito_settings. -/
def load_jito_settings (env : Env) : JitoConfig :=
  { block_engine_url := (env "JITO_BLOCK_ENGINE_URL").getD JitoConfig.default.block_engine_url
    priority_fee := parse_u64_env env "JITO_PRIORITY_FEE" JitoConfig.default.priority_fee
    tip_value := parse_u64_env env "JITO_TIP_VALUE" JitoConfig.default.tip_value
    use_jito := parse_bool_env env "USE_JITO" JitoConfig.default.use_jito }

/-- Config::load_zero_slot_settings. -/
def load_zero_slot_settings (env : Env) : ZeroSlotConfig :=
  { url := (env "ZERO_SLOT_URL").getD ZeroSlotConfig.default.url
    tip_value := parse_u64_env env "ZERO_SLOT_TIP_VALUE" ZeroSlotConfig.default.tip_value }

/-- Config::load_nozomi_settings. -/
def load_nozomi_settings (env : Env) : NozomiConfig :=
  { url := (env "NOZOMI_URL").getD NozomiConfig.default.url
    tip_value := parse_u64_env env "NOZOMI_TIP_VALUE" NozomiConfig.default.tip_value }

/-- Config::load_blox_route_settings. -/
def load_blox_route_settings (env : Env) : BloxRouteConfig :=
  { network := (env "NETWORK").getD BloxRouteConfig.default.network
    region := (env "REGION").getD BloxRouteConfig.default.region
    auth_header := (env "AUTH_HEADER").getD ""
    tip_value := parse_u64_env env "BLOXROUTE_TIP_VALUE" BloxRouteConfig.default.tip_value }

/-- Config::load_advanced_filter_settings. -/
def load_advanced_filter_settings (env : Env) : AdvancedFilterSettings :=
  { min_market_cap := parse_f64_env env "MIN_MARKET_CAP" AdvancedFilterSettings.default.min_market_cap
    max_market_cap := parse_f64_env env "MAX_MARKET_CAP" AdvancedFilterSettings.default.max_market_cap
    market_cap_enabled := parse_bool_env env "MARKET_CAP_ENABLED" AdvancedFilterSettings.default.market_cap_enabled
    min_volume := parse_f64_env env "MIN_VOLUME" AdvancedFilterSettings.default.min_volume
    max_volume := parse_f64_env env "MAX_VOLUME" AdvancedFilterSettings.default.max_volume
    volume_enabled := parse_bool_env env "VOLUME_ENABLED" AdvancedFilterSettings.default.volume_enabled
    min_number_of_buy_sell := parse_i32_env env "MIN_NUMBER_OF_BUY_SELL" AdvancedFilterSettings.default.min_number_of_buy_sell
    max_number_of_buy_sell := parse_i32_env env "MAX_NUMBER_OF_BUY_SELL" AdvancedFilterSettings.default.max_number_of_buy_sell
    buy_sell_count_enabled := parse_bool_env env "BUY_SELL_COUNT_ENABLED" AdvancedFilterSettings.default.buy_sell_count_enabled
    sol_invested := parse_f64_env env "SOL_INVESTED" AdvancedFilterSettings.default.sol_invested
    sol_invested_enabled := parse_bool_env env "SOL_INVESTED_ENABLED" AdvancedFilterSettings.default.sol_invested_enabled
    min_launcher_sol_balance := parse_f64_env env "MIN_LAUNCHER_SOL_BALANCE" AdvancedFilterSettings.default.min_launcher_sol_balance
    max_launcher_sol_balance := parse_f64_env env "MAX_LAUNCHER_SOL_BALANCE" AdvancedFilterSettings.default.max_launcher_sol_balance
    launcher_sol_enabled := parse_bool_env env "LAUNCHER_SOL_ENABLED" AdvancedFilterSettings.default.launcher_sol_enabled
    dev_buy_enabled := parse_bool_env env "DEV_BUY_ENABLED" AdvancedFilterSettings.default.dev_buy_enabled }

/-- Config::load_copy_trading_settings, including the comma-split-and-trim
parsing of the target wallet list. -/
def load_copy_trading_settings (env : Env) : CopyTradingConfig :=
  let target_wallets_str := (env "TARGET_WALLETS").getD ""
  let target_wallets :=
    if target_wallets_str = "" then ([] : List String)
    else (splitOnChar ',' target_wallets_str.data).map (fun cs => rustTrim (String.mk cs))
  { enabled := parse_bool_env env "COPY_TRADING_ENABLED" CopyTradingConfig.default.enabled
    buy_sell_percent := unwrapOr
      (parse_f64_env_with_validation env "BUY_SELL_PERCENT" CopyTradingConfig.default.buy_sell_percent 0 100)
      CopyTradingConfig.default.buy_sell_percent
    target_wallets := target_wallets
    multi_target_mode := parse_bool_env env "MULTI_TARGET_MODE" CopyTradingConfig.default.multi_target_mode
    mc_threshold_to_buy := parse_f64_env env "MC_THRESHOLD_TO_BUY" CopyTradingConfig.default.mc_threshold_to_buy
    mc_threshold_to_follow := parse_f64_env env "MC_THRESHOLD_TO_FOLLOW" CopyTradingConfig.default.mc_threshold_to_follow }

/-- Config::load_private_logic_settings. -/
def load_private_logic_settings (env : Env) : PrivateLogicConfig :=
  { enabled := parse_bool_env env "PRIVATE_LOGIC_ENABLED" PrivateLogicConfig.default.enabled
    stage_1_percent := unwrapOr
      (parse_f64_env_with_validation env "PL_STAGE_1_PERCENT" PrivateLogicConfig.default.stage_1_percent 0 100)
      PrivateLogicConfig.default.stage_1_percent
    stage_1_delay := parse_u64_env env "PL_STAGE_1_DELAY" PrivateLogicConfig.default.stage_1_delay
    stage_2_percent := unwrapOr
      (parse_f64_env_with_validation env "PL_STAGE_2_PERCENT" PrivateLogicConfig.default.stage_2_percent 0 100)
      PrivateLogicConfig.default.stage_2_percent
    stage_2_delay := parse_u64_env env "PL_STAGE_2_DELAY" PrivateLogicConfig.default.stage_2_delay
    stage_3_percent := unwrapOr
      (parse_f64_env_with_validation env "PL_STAGE_3_PERCENT" PrivateLogicConfig.default.stage_3_percent 0 100)
      PrivateLogicConfig.default.stage_3_percent
    stage_3_delay := parse_u64_env env "PL_STAGE_3_DELAY" PrivateLogicConfig.default.stage_3_delay
    stage_4_percent := unwrapOr
      (parse_f64_env_with_validation env "PL_STAGE_4_PERCENT" PrivateLogicConfig.default.stage_4_percent 0 100)
      PrivateLogicConfig.default.stage_4_percent
    stage_4_delay := parse_u64_env env "PL_STAGE_4_DELAY" PrivateLogicConfig.default.stage_4_delay
    stage_5_percent := unwrapOr
      (parse_f64_env_with_validation env "PL_STAGE_5_PERCENT" PrivateLogicConfig.default.stage_5_percent 0 100)
      PrivateLogicConfig.default.stage_5_percent
    stage_5_delay := parse_u64_env env "PL_STAGE_5_DELAY" PrivateLogicConfig.default.stage_5_delay
    stage_6_percent := unwrapOr
      (parse_f64_env_with_validation env "PL_STAGE_6_PERCENT" PrivateLogicConfig.default.stage_6_percent 0 100)
      PrivateLogicConfig.default.stage_6_percent
    stage_6_delay := parse_u64_env env "PL_STAGE_6_DELAY" PrivateLogicConfig.default.stage_6_delay
    stage_7_percent := unwrapOr
      (parse_f64_env_with_validation env "PL_STAGE_7_PERCENT" PrivateLogicConfig.default.stage_7_percent 0 100)
      PrivateLogicConfig.default.stage_7_percent
    stage_7_delay := parse_u64_env env "PL_STAGE_7_DELAY" PrivateLogicConfig.default.stage_7_delay }

/-- Config::load_inverse_buy_settings. -/
def load_inverse_buy_settings (env : Env) : InverseBuyConfig :=
  { enabled := parse_bool_env env "INVERSE_BUY_ENABLED" InverseBuyConfig.default.enabled
    buy_amount := parse_f64_env env "INVERSE_BUY_AMOUNT" InverseBuyConfig.default.buy_amount }

/-- Config::load_timer_settings. -/
def load_timer_settings (env : Env) : TimerConfig :=
  { enabled := parse_bool_env env "TIMER_ENABLED" TimerConfig.default.enabled
    start_time := unwrapOr
      (parse_time_format_env env "BOT_START_TIME" TimerConfig.default.start_time)
      TimerConfig.default.start_time
    stop_time := unwrapOr
      (parse_time_format_env env "BOT_STOP_TIME" TimerConfig.default.stop_time)
      TimerConfig.default.stop_time
    auto_sell_on_stop := parse_bool_env env "AUTO_SELL_ON_STOP" TimerConfig.default.auto_sell_on_stop }

/-- Config::load_mode_settings. -/
def load_mode_settings (env : Env) : ModeConfig :=
  { simulation_mode := parse_bool_env env "SIMULATION_MODE" ModeConfig.default.simulation_mode
    live_mode := parse_bool_env env "LIVE_MODE" ModeConfig.default.live_mode
    paper_trading := parse_bool_env env "PAPER_TRADING" ModeConfig.default.paper_trading }

/-- Config::load_advanced_settings. -/
def load_advanced_settings (env : Env) : AdvancedConfig :=
  { limit_wait_time := parse_u64_env env "LIMIT_WAIT_TIME" AdvancedConfig.default.limit_wait_time
    limit_buy_amount_in_limit_wait_time := parse_f64_env env "LIMIT_BUY_AMOUNT_IN_LIMIT_WAIT_TIME" AdvancedConfig.default.limit_buy_amount_in_limit_wait_time
    review_cycle_duration := parse_u64_env env "REVIEW_CYCLE_DURATION" AdvancedConfig.default.review_cycle_duration
    time_delta_threshold := parse_u64_env env "TIME_DELTA_THRESHOLD" AdvancedConfig.default.time_delta_threshold
    price_delta_threshold := parse_f64_env env "PRICE_DELTA_THRESHOLD" AdvancedConfig.default.price_delta_threshold
    min_buy_confidence := unwrapOr
      (parse_f64_env_with_validation env "MIN_BUY_CONFIDENCE" AdvancedConfig.default.min_buy_confidence 0 1)
      AdvancedConfig.default.min_buy_confidence
    min_sell_confidence := unwrapOr
      (parse_f64_env_with_validation env "MIN_SELL_CONFIDENCE" AdvancedConfig.default.min_sell_confidence 0 1)
      AdvancedConfig.default.min_sell_confidence
    daily_buy_budget := parse_f64_env env "DAILY_BUY_BUDGET" AdvancedConfig.default.daily_buy_budget }

/-- Config::validate_all_settings: the ordered cross-field and range checks,
accumulating every violation and failing only when the list is nonempty. -/
def validate_all_settings (basic_trading : BasicTradingConfig) (jito : JitoConfig)
    (advanced_filters : AdvancedFilterSettings) (copy_trading : CopyTradingConfig)
    (private_logic : PrivateLogicConfig) (timer : TimerConfig)
    (advanced : AdvancedConfig) : Except (List ConfigError) Unit :=
  let errors : List ConfigError := []
  let errors :=
    if basic_trading.threshold_sell ≤ basic_trading.threshold_buy then
      errors ++ [ConfigError.invalidThresholds basic_trading.threshold_buy basic_trading.threshold_sell]
    else errors
  let errors :=
    if basic_trading.downing_percent < 0 ∨ 100 < basic_trading.downing_percent then
      errors ++ [ConfigError.invalidPercentage "DOWNING_PERCENT" basic_trading.downing_percent]
    else errors
  let errors :=
    if advanced_filters.max_market_cap < advanced_filters.min_market_cap then
      errors ++ [ConfigError.validationError "MARKET_CAP" "min cannot be greater than max"]
    else errors
  let errors :=
    if advanced_filters.max_volume < advanced_filters.min_volume then
      errors ++ [ConfigError.validationError "VOLUME" "min cannot be greater than max"]
    else errors
  let errors := copy_trading.target_wallets.foldl
    (fun es wallet =>
      if ¬ is_valid_wallet_address wallet then es ++ [ConfigError.invalidWalletAddress wallet]
      else es) errors
  let errors :=
    if timer.enabled ∧ ¬ Config.is_valid_time_format timer.start_time then
      errors ++ [ConfigError.invalidTimeFormat timer.start_time]
    else errors
  let errors :=
    if timer.enabled ∧ ¬ Config.is_valid_time_format timer.stop_time then
      errors ++ [ConfigError.invalidTimeFormat timer.stop_time]
    else errors
  let errors :=
    if advanced.min_buy_confidence < 0 ∨ 1 < advanced.min_buy_confidence then
      errors ++ [ConfigError.invalidPercentage "MIN_BUY_CONFIDENCE" (advanced.min_buy_confidence * 100)]
    else errors
  let errors :=
    if advanced.min_sell_confidence < 0 ∨ 1 < advanced.min_sell_confidence then
      errors ++ [ConfigError.invalidPercentage "MIN_SELL_CONFIDENCE" (advanced.min_sell_confidence * 100)]
    else errors
  if errors.isEmpty then Except.ok () else Except.error errors

/-- The diagnostic list a validator result carries: the accumulated list on
failure, and the (necessarily empty) list on success. -/
def errorsOf : Except (List ConfigError) Unit → List ConfigError
  | Except.ok _ => []
  | Except.error es => es

/-- Modelled from the spec: the repository files hold no Reporting/Export
implementation, only the serde Serialize and Deserialize derivations on the
category records; the persisted settings document of spec section 6 is a
JSON object whose values match each category field set and types.  A document
value is one typed field value. -/
inductive JsonValue where
  | nat (n : Nat)
  | int (i : Int)
  | rat (q : ℚ)
  | str (s : String)
  | bool (b : Bool)
  | strList (xs : List String)
deriving DecidableEq

/-- Modelled from the spec: field lookup in one exported category object. -/
def jsonLookup (doc : List (String × JsonValue)) (key : String) : Option JsonValue :=
  match doc with
  | [] => none
  | (k, v) :: rest => if k = key then some v else jsonLookup rest key

/-- Modelled from the spec: a Nat-typed field of an exported category object. -/
def getNatField (doc : List (String × JsonValue)) (key : String) : Option Nat :=
  match jsonLookup doc key with
  | some (JsonValue.nat n) => some n
  | _ => none

/-- Modelled from the spec: an Int-typed field of an exported category object. -/
def getIntField (doc : List (String × JsonValue)) (key : String) : Option Int :=
  match jsonLookup doc key with
  | some (JsonValue.int i) => some i
  | _ => none

/-- Modelled from the spec: a rational-typed field of an exported category object. -/
def getRatField (doc : List (String × JsonValue)) (key : String) : Option ℚ :=
  match jsonLookup doc key with
  | some (JsonValue.rat q) => some q
  | _ => none

/-- Modelled from the spec: a string-typed field of an exported category object. -/
def getStrField (doc : List (String × JsonValue)) (key : String) : Option String :=
  match jsonLookup doc key with
  | some (JsonValue.str s) => some s
  | _ => none

/-- Modelled from the spec: a boolean-typed field of an exported category object. -/
def getBoolField (doc : List (String × JsonValue)) (key : String) : Option Bool :=
  match jsonLookup doc key with
  | some (JsonValue.bool b) => some b
  | _ => none

/-- Modelled from the spec: a string-list-typed field of an exported category object. -/
def getStrListField (doc : List (String × JsonValue)) (key : String) : Option (List String) :=
  match jsonLookup doc key with
  | some (JsonValue.strList xs) => some xs
  | _ => none

/-- Modelled from the spec: export of the basic-trading category; the secret
private_key field is never included in the persisted document. -/
def exportBasicTrading (c : BasicTradingConfig) : List (String × JsonValue) :=
  [("threshold_sell", JsonValue.nat c.threshold_sell),
   ("threshold_buy", JsonValue.nat c.threshold_buy),
   ("max_wait_time", JsonValue.nat c.max_wait_time),
   ("rpc_http", JsonValue.str c.rpc_http),
   ("rpc_wss", JsonValue.str c.rpc_wss),
   ("time_exceed", JsonValue.nat c.time_exceed),
   ("token_amount", JsonValue.nat c.token_amount),
   ("unit_price", JsonValue.rat c.unit_price),
   ("unit_limit", JsonValue.nat c.unit_limit),
   ("downing_percent", JsonValue.rat c.downing_percent),
   ("sell_all_tokens", JsonValue.bool c.sell_all_tokens)]

/-- Modelled from the spec: re-load of the basic-trading category through the
same field mapping, defaulting any field the document does not carry. -/
def importBasicTrading (doc : List (String × JsonValue)) : BasicTradingConfig :=
  { threshold_sell := (getNatField doc "threshold_sell").getD BasicTradingConfig.default.threshold_sell
    threshold_buy := (getNatField doc "threshold_buy").getD BasicTradingConfig.default.threshold_buy
    max_wait_time := (getNatField doc "max_wait_time").getD BasicTradingConfig.default.max_wait_time
    private_key := (getStrField doc "private_key").getD BasicTradingConfig.default.private_key
    rpc_http := (getStrField doc "rpc_http").getD BasicTradingConfig.default.rpc_http
    rpc_wss := (getStrField doc "rpc_wss").getD BasicTradingConfig.default.rpc_wss
    time_exceed := (getNatField doc "time_exceed").getD BasicTradingConfig.default.time_exceed
    token_amount := (getNatField doc "token_amount").getD BasicTradingConfig.default.token_amount
    unit_price := (getRatField doc "unit_price").getD BasicTradingConfig.default.unit_price
    unit_limit := (getNatField doc "unit_limit").getD BasicTradingConfig.default.unit_limit
    downing_percent := (getRatField doc "downing_percent").getD BasicTradingConfig.default.downing_percent
    sell_all_tokens := (getBoolField doc "sell_all_tokens").getD BasicTradingConfig.default.sell_all_tokens }

/-- Modelled from the spec: export of the Jito category. -/
def exportJito (c : JitoConfig) : List (String × JsonValue) :=
  [("block_engine_url", JsonValue.str c.block_engine_url),
   ("priority_fee", JsonValue.nat c.priority_fee),
   ("tip_value", JsonValue.nat c.tip_value),
   ("use_jito", JsonValue.bool c.use_jito)]

/-- Modelled from the spec: re-load of the Jito category. -/
def importJito (doc : List (String × JsonValue)) : JitoConfig :=
  { block_engine_url := (getStrField doc "block_engine_url").getD JitoConfig.default.block_engine_url
    priority_fee := (getNatField doc "priority_fee").getD JitoConfig.default.priority_fee
    tip_value := (getNatField doc "tip_value").getD JitoConfig.default.tip_value
    use_jito := (getBoolField doc "use_jito").getD JitoConfig.default.use_jito }

/-- Modelled from the spec: export of the ZeroSlot category. -/
def exportZeroSlot (c : ZeroSlotConfig) : List (String × JsonValue) :=
  [("url", JsonValue.str c.url), ("tip_value", JsonValue.nat c.tip_value)]

/-- Modelled from the spec: re-load of the ZeroSlot category. -/
def importZeroSlot (doc : List (String × JsonValue)) : ZeroSlotConfig :=
  { url := (getStrField doc "url").getD ZeroSlotConfig.default.url
    tip_value := (getNatField doc "tip_value").getD ZeroSlotConfig.default.tip_value }

/-- Modelled from the spec: export of the Nozomi category. -/
def exportNozomi (c : NozomiConfig) : List (String × JsonValue) :=
  [("url", JsonValue.str c.url), ("tip_value", JsonValue.nat c.tip_value)]

/-- Modelled from the spec: re-load of the Nozomi category. -/
def importNozomi (doc : List (String × JsonValue)) : NozomiConfig :=
  { url := (getStrField doc "url").getD NozomiConfig.default.url
    tip_value := (getNatField doc "tip_value").getD NozomiConfig.default.tip_value }

/-- Modelled from the spec: export of the BloxRoute category. -/
def exportBloxRoute (c : BloxRouteConfig) : List (String × JsonValue) :=
  [("network", JsonValue.str c.network),
   ("region", JsonValue.str c.region),
   ("auth_header", JsonValue.str c.auth_header),
   ("tip_value", JsonValue.nat c.tip_value)]

/-- Modelled from the spec: re-load of the BloxRoute category. -/
def importBloxRoute (doc : List (String × JsonValue)) : BloxRouteConfig :=
  { network := (getStrField doc "network").getD BloxRouteConfig.default.network
    region := (getStrField doc "region").getD BloxRouteConfig.default.region
    auth_header := (getStrField doc "auth_header").getD BloxRouteConfig.default.auth_header
    tip_value := (getNatField doc "tip_value").getD BloxRouteConfig.default.tip_value }

/-- Modelled from the spec: export of the advanced-filter category. -/
def exportAdvancedFilters (c : AdvancedFilterSettings) : List (String × JsonValue) :=
  [("min_market_cap", JsonValue.rat c.min_market_cap),
   ("max_market_cap", JsonValue.rat c.max_market_cap),
   ("market_cap_enabled", JsonValue.bool c.market_cap_enabled),
   ("min_volume", JsonValue.rat c.min_volume),
   ("max_volume", JsonValue.rat c.max_volume),
   ("volume_enabled", JsonValue.bool c.volume_enabled),
   ("min_number_of_buy_sell", JsonValue.int c.min_number_of_buy_sell),
   ("max_number_of_buy_sell", JsonValue.int c.max_number_of_buy_sell),
   ("buy_sell_count_enabled", JsonValue.bool c.buy_sell_count_enabled),
   ("sol_invested", JsonValue.rat c.sol_invested),
   ("sol_invested_enabled", JsonValue.bool c.sol_invested_enabled),
   ("min_launcher_sol_balance", JsonValue.rat c.min_launcher_sol_balance),
   ("max_launcher_sol_balance", JsonValue.rat c.max_launcher_sol_balance),
   ("launcher_sol_enabled", JsonValue.bool c.launcher_sol_enabled),
   ("dev_buy_enabled", JsonValue.bool c.dev_buy_enabled)]

/-- Modelled from the spec: re-load of the advanced-filter category. -/
def importAdvancedFilters (doc : List (String × JsonValue)) : AdvancedFilterSettings :=
  { min_market_cap := (getRatField doc "min_market_cap").getD AdvancedFilterSettings.default.min_market_cap
    max_market_cap := (getRatField doc "max_market_cap").getD AdvancedFilterSettings.default.max_market_cap
    market_cap_enabled := (getBoolField doc "market_cap_enabled").getD AdvancedFilterSettings.default.market_cap_enabled
    min_volume := (getRatField doc "min_volume").getD AdvancedFilterSettings.default.min_volume
    max_volume := (getRatField doc "max_volume").getD AdvancedFilterSettings.default.max_volume
    volume_enabled := (getBoolField doc "volume_enabled").getD AdvancedFilterSettings.default.volume_enabled
    min_number_of_buy_sell := (getIntField doc "min_number_of_buy_sell").getD AdvancedFilterSettings.default.min_number_of_buy_sell
    max_number_of_buy_sell := (getIntField doc "max_number_of_buy_sell").getD AdvancedFilterSettings.default.max_number_of_buy_sell
    buy_sell_count_enabled := (getBoolField doc "buy_sell_count_enabled").getD AdvancedFilterSettings.default.buy_sell_count_enabled
    sol_invested := (getRatField doc "sol_invested").getD AdvancedFilterSettings.default.sol_invested
    sol_invested_enabled := (getBoolField doc "sol_invested_enabled").getD AdvancedFilterSettings.default.sol_invested_enabled
    min_launcher_sol_balance := (getRatField doc "min_launcher_sol_balance").getD AdvancedFilterSettings.default.min_launcher_sol_balance
    max_launcher_sol_balance := (getRatField doc "max_launcher_sol_balance").getD AdvancedFilterSettings.default.max_launcher_sol_balance
    launcher_sol_enabled := (getBoolField doc "launcher_sol_enabled").getD AdvancedFilterSettings.default.launcher_sol_enabled
    dev_buy_enabled := (getBoolField doc "dev_buy_enabled").getD AdvancedFilterSettings.default.dev_buy_enabled }

/-- Modelled from the spec: export of the copy-trading category. -/
def exportCopyTrading (c : CopyTradingConfig) : List (String × JsonValue) :=
  [("enabled", JsonValue.bool c.enabled),
   ("buy_sell_percent", JsonValue.rat c.buy_sell_percent),
   ("target_wallets", JsonValue.strList c.target_wallets),
   ("multi_target_mode", JsonValue.bool c.multi_target_mode),
   ("mc_threshold_to_buy", JsonValue.rat c.mc_threshold_to_buy),
   ("mc_threshold_to_follow", JsonValue.rat c.mc_threshold_to_follow)]

/-- Modelled from the spec: re-load of the copy-trading category. -/
def importCopyTrading (doc : List (String × JsonValue)) : CopyTradingConfig :=
  { enabled := (getBoolField doc "enabled").getD CopyTradingConfig.default.enabled
    buy_sell_percent := (getRatField doc "buy_sell_percent").getD CopyTradingConfig.default.buy_sell_percent
    target_wallets := (getStrListField doc "target_wallets").getD CopyTradingConfig.default.target_wallets
    multi_target_mode := (getBoolField doc "multi_target_mode").getD CopyTradingConfig.default.multi_target_mode
    mc_threshold_to_buy := (getRatField doc "mc_threshold_to_buy").getD CopyTradingConfig.default.mc_threshold_to_buy
    mc_threshold_to_follow := (getRatField doc "mc_threshold_to_follow").getD CopyTradingConfig.default.mc_threshold_to_follow }

/-- Modelled from the spec: export of the private-logic category. -/
def exportPrivateLogic (c : PrivateLogicConfig) : List (String × JsonValue) :=
  [("enabled", JsonValue.bool c.enabled),
   ("stage_1_percent", JsonValue.rat c.stage_1_percent),
   ("stage_1_delay", JsonValue.nat c.stage_1_delay),
   ("stage_2_percent", JsonValue.rat c.stage_2_percent),
   ("stage_2_delay", JsonValue.nat c.stage_2_delay),
   ("stage_3_percent", JsonValue.rat c.stage_3_percent),
   ("stage_3_delay", JsonValue.nat c.stage_3_delay),
   ("stage_4_percent", JsonValue.rat c.stage_4_percent),
   ("stage_4_delay", JsonValue.nat c.stage_4_delay),
   ("stage_5_percent", JsonValue.rat c.stage_5_percent),
   ("stage_5_delay", JsonValue.nat c.stage_5_delay),
   ("stage_6_percent", JsonValue.rat c.stage_6_percent),
   ("stage_6_delay", JsonValue.nat c.stage_6_delay),
   ("stage_7_percent", JsonValue.rat c.stage_7_percent),
   ("stage_7_delay", JsonValue.nat c.stage_7_delay)]

/-- Modelled from the spec: re-load of the private-logic category. -/
def importPrivateLogic (doc : List (String × JsonValue)) : PrivateLogicConfig :=
  { enabled := (getBoolField doc "enabled").getD PrivateLogicConfig.default.enabled
    stage_1_percent := (getRatField doc "stage_1_percent").getD PrivateLogicConfig.default.stage_1_percent
    stage_1_delay := (getNatField doc "stage_1_delay").getD PrivateLogicConfig.default.stage_1_delay
    stage_2_percent := (getRatField doc "stage_2_percent").getD PrivateLogicConfig.default.stage_2_percent
    stage_2_delay := (getNatField doc "stage_2_delay").getD PrivateLogicConfig.default.stage_2_delay
    stage_3_percent := (getRatField doc "stage_3_percent").getD PrivateLogicConfig.default.stage_3_percent
    stage_3_delay := (getNatField doc "stage_3_delay").getD PrivateLogicConfig.default.stage_3_delay
    stage_4_percent := (getRatField doc "stage_4_percent").getD PrivateLogicConfig.default.stage_4_percent
    stage_4_delay := (getNatField doc "stage_4_delay").getD PrivateLogicConfig.default.stage_4_delay
    stage_5_percent := (getRatField doc "stage_5_percent").getD PrivateLogicConfig.default.stage_5_percent
    stage_5_delay := (getNatField doc "stage_5_delay").getD PrivateLogicConfig.default.stage_5_delay
    stage_6_percent := (getRatField doc "stage_6_percent").getD PrivateLogicConfig.default.stage_6_percent
    stage_6_delay := (getNatField doc "stage_6_delay").getD PrivateLogicConfig.default.stage_6_delay
    stage_7_percent := (getRatField doc "stage_7_percent").getD PrivateLogicConfig.default.stage_7_percent
    stage_7_delay := (getNatField doc "stage_7_delay").getD PrivateLogicConfig.default.stage_7_delay }

/-- Modelled from the spec: export of the inverse-buy category. -/
def exportInverseBuy (c : InverseBuyConfig) : List (String × JsonValue) :=
  [("enabled", JsonValue.bool c.enabled), ("buy_amount", JsonValue.rat c.buy_amount)]

/-- Modelled from the spec: re-load of the inverse-buy category. -/
def importInverseBuy (doc : List (String × JsonValue)) : InverseBuyConfig :=
  { enabled := (getBoolField doc "enabled").getD InverseBuyConfig.default.enabled
    buy_amount := (getRatField doc "buy_amount").getD InverseBuyConfig.default.buy_amount }

/-- Modelled from the spec: export of the timer category. -/
def exportTimer (c : TimerConfig) : List (String × JsonValue) :=
  [("enabled", JsonValue.bool c.enabled),
   ("start_time", JsonValue.str c.start_time),
   ("stop_time", JsonValue.str c.stop_time),
   ("auto_sell_on_stop", JsonValue.bool c.auto_sell_on_stop)]

/-- Modelled from the spec: re-load of the timer category. -/
def importTimer (doc : List (String × JsonValue)) : TimerConfig :=
  { enabled := (getBoolField doc "enabled").getD TimerConfig.default.enabled
    start_time := (getStrField doc "start_time").getD TimerConfig.default.start_time
    stop_time := (getStrField doc "stop_time").getD TimerConfig.default.stop_time
    auto_sell_on_stop := (getBoolField doc "auto_sell_on_stop").getD TimerConfig.default.auto_sell_on_stop }

/-- Modelled from the spec: export of the mode category. -/
def exportMode (c : ModeConfig) : List (String × JsonValue) :=
  [("simulation_mode", JsonValue.bool c.simulation_mode),
   ("live_mode", JsonValue.bool c.live_mode),
   ("paper_trading", JsonValue.bool c.paper_trading)]

/-- Modelled from the spec: re-load of the mode category. -/
def importMode (doc : List (String × JsonValue)) : ModeConfig :=
  { simulation_mode := (getBoolField doc "simulation_mode").getD ModeConfig.default.simulation_mode
    live_mode := (getBoolField doc "live_mode").getD ModeConfig.default.live_mode
    paper_trading := (getBoolField doc "paper_trading").getD ModeConfig.default.paper_trading }

/-- Modelled from the spec: export of the advanced category. -/
def exportAdvanced (c : AdvancedConfig) : List (String × JsonValue) :=
  [("limit_wait_time", JsonValue.nat c.limit_wait_time),
   ("limit_buy_amount_in_limit_wait_time", JsonValue.rat c.limit_buy_amount_in_limit_wait_time),
   ("review_cycle_duration", JsonValue.nat c.review_cycle_duration),
   ("time_delta_threshold", JsonValue.nat c.time_delta_threshold),
   ("price_delta_threshold", JsonValue.rat c.price_delta_threshold),
   ("min_buy_confidence", JsonValue.rat c.min_buy_confidence),
   ("min_sell_confidence", JsonValue.rat c.min_sell_confidence),
   ("daily_buy_budget", JsonValue.rat c.daily_buy_budget)]

/-- Modelled from the spec: re-load of the advanced category. -/
def importAdvanced (doc : List (String × JsonValue)) : AdvancedConfig :=
  { limit_wait_time := (getNatField doc "limit_wait_time").getD AdvancedConfig.default.limit_wait_time
    limit_buy_amount_in_limit_wait_time := (getRatField doc "limit_buy_amount_in_limit_wait_time").getD AdvancedConfig.default.limit_buy_amount_in_limit_wait_time
    review_cycle_duration := (getNatField doc "review_cycle_duration").getD AdvancedConfig.default.review_cycle_duration
    time_delta_threshold := (getNatField doc "time_delta_threshold").getD AdvancedConfig.default.time_delta_threshold
    price_delta_threshold := (getRatField doc "price_delta_threshold").getD AdvancedConfig.default.price_delta_threshold
    min_buy_confidence := (getRatField doc "min_buy_confidence").getD AdvancedConfig.default.min_buy_confidence
    min_sell_confidence := (getRatField doc "min_sell_confidence").getD AdvancedConfig.default.min_sell_confidence
    daily_buy_budget := (getRatField doc "daily_buy_budget").getD AdvancedConfig.default.daily_buy_budget }

/-- Modelled from the spec: the persisted settings document, one top-level
key per tunable category; secrets and runtime handles are never included. -/
def exportConfigDocument (basic_trading : BasicTradingConfig) (jito : JitoConfig)
    (zero_slot : ZeroSlotConfig) (nozomi : NozomiConfig) (blox_route : BloxRouteConfig)
    (advanced_filters : AdvancedFilterSettings) (copy_trading : CopyTradingConfig)
    (private_logic : PrivateLogicConfig) (inverse_buy : InverseBuyConfig)
    (timer : TimerConfig) (mode : ModeConfig) (advanced : AdvancedConfig) :
    List (String × List (String × JsonValue)) :=
  [("basic_trading", exportBasicTrading basic_trading),
   ("jito", exportJito jito),
   ("zero_slot", exportZeroSlot zero_slot),
   ("nozomi", exportNozomi nozomi),
   ("blox_route", exportBloxRoute blox_route),
   ("advanced_filters", exportAdvancedFilters advanced_filters),
   ("copy_trading", exportCopyTrading copy_trading),
   ("private_logic", exportPrivateLogic private_logic),
   ("inverse_buy", exportInverseBuy inverse_buy),
   ("timer", exportTimer timer),
   ("mode", exportMode mode),
   ("advanced", exportAdvanced advanced)]

/-- Modelled from the spec: one top-level category object of the persisted
document, empty when the document does not carry the category. -/
def docSection (doc : List (String × List (String × JsonValue))) (key : String) :
    List (String × JsonValue) :=
  match doc with
  | [] => []
  | (k, v) :: rest => if k = key then v else docSection rest key

/-- The persisted document of the all-defaults aggregate. -/
def defaultConfigDocument : List (String × List (String × JsonValue)) :=
  exportConfigDocument BasicTradingConfig.default JitoConfig.default ZeroSlotConfig.default
    NozomiConfig.default BloxRouteConfig.default AdvancedFilterSettings.default
    CopyTradingConfig.default PrivateLogicConfig.default InverseBuyConfig.default
    TimerConfig.default ModeConfig.default AdvancedConfig.default

/-- The basic-trading record with the two thresholds replaced. -/
def btWith (buy sell : Nat) : BasicTradingConfig :=
  { BasicTradingConfig.default with threshold_buy := buy, threshold_sell := sell }

/-- The basic-trading record with the downing percentage replaced. -/
def btWithDowning (q : ℚ) : BasicTradingConfig :=
  { BasicTradingConfig.default with downing_percent := q }

/-- The advanced-filter record with both min/max pairs replaced. -/
def afWithBounds (mcmin mcmax volmin volmax : ℚ) : AdvancedFilterSettings :=
  { AdvancedFilterSettings.default with
      min_market_cap := mcmin, max_market_cap := mcmax,
      min_volume := volmin, max_volume := volmax }

/-- The advanced-filter record whose market-cap bounds are equal (8 = 8) and
whose volume bounds are equal (5 = 5), otherwise the defaults. -/
def afEqualBounds : AdvancedFilterSettings :=
  { AdvancedFilterSettings.default with max_market_cap := 8, max_volume := 5 }

/-- The advanced record with the buy confidence replaced. -/
def advWithBuyConfidence (q : ℚ) : AdvancedConfig :=
  { AdvancedConfig.default with min_buy_confidence := q }

/-- The advanced record with the sell confidence replaced. -/
def advWithSellConfidence (q : ℚ) : AdvancedConfig :=
  { AdvancedConfig.default with min_sell_confidence := q }

/-- The validator applied with default Jito, copy-trading, private-logic and
timer records, varying the three records the range checks read. -/
def validateWith (bt : BasicTradingConfig) (af : AdvancedFilterSettings)
    (adv : AdvancedConfig) : Except (List ConfigError) Unit :=
  validate_all_settings bt JitoConfig.default af CopyTradingConfig.default
    PrivateLogicConfig.default TimerConfig.default adv

/-- The environment that sets only BUY_SELL_PERCENT, to the out-of-range 150.0. -/
def env150 : Env := env1 "BUY_SELL_PERCENT" "150.0"

/-- How many diagnostics mention the given field as an out-of-range percentage. -/
def percentErrCount (es : List ConfigError) (field : String) : Nat :=
  (es.filter (fun e =>
    match e with
    | ConfigError.invalidPercentage f _ => f == field
    | _ => false)).length

lemma errorsOf_wrap (l : List ConfigError) :
    errorsOf (if l.isEmpty then Except.ok () else Except.error l) = l := by
  cases l <;> simp [errorsOf]

lemma validateWith_btWith (buy sell : Nat) :
    errorsOf (validateWith (btWith buy sell) AdvancedFilterSettings.default
        AdvancedConfig.default)
      = if sell ≤ buy then [ConfigError.invalidThresholds buy sell] else [] := by
  have hd : ¬ (BasicTradingConfig.default.downing_percent < 0 ∨
      100 < BasicTradingConfig.default.downing_percent) := by decide
  have hb : ¬ (AdvancedConfig.default.min_buy_confidence < 0 ∨
      1 < AdvancedConfig.default.min_buy_confidence) := by decide
  have hs : ¬ (AdvancedConfig.default.min_sell_confidence < 0 ∨
      1 < AdvancedConfig.default.min_sell_confidence) := by decide
  have hmc : ¬ (AdvancedFilterSettings.default.max_market_cap <
      AdvancedFilterSettings.default.min_market_cap) := by decide
  have hv : ¬ (AdvancedFilterSettings.default.max_volume <
      AdvancedFilterSettings.default.min_volume) := by decide
  by_cases h : sell ≤ buy <;>
    simp [validateWith, validate_all_settings, btWith, errorsOf, h, hd, hb, hs, hmc, hv,
      CopyTradingConfig.default, TimerConfig.default]

lemma validateWith_downing (q : ℚ) :
    errorsOf (validateWith (btWithDowning q) AdvancedFilterSettings.default
        AdvancedConfig.default)
      = if q < 0 ∨ 100 < q then [ConfigError.invalidPercentage "DOWNING_PERCENT" q]
        else [] := by
  have ht : ¬ (BasicTradingConfig.default.threshold_sell ≤
      BasicTradingConfig.default.threshold_buy) := by decide
  have hb : ¬ (AdvancedConfig.default.min_buy_confidence < 0 ∨
      1 < AdvancedConfig.default.min_buy_confidence) := by decide
  have hs : ¬ (AdvancedConfig.default.min_sell_confidence < 0 ∨
      1 < AdvancedConfig.default.min_sell_confidence) := by decide
  have hmc : ¬ (AdvancedFilterSettings.default.max_market_cap <
      AdvancedFilterSettings.default.min_market_cap) := by decide
  have hv : ¬ (AdvancedFilterSettings.default.max_volume <
      AdvancedFilterSettings.default.min_volume) := by decide
  by_cases h : q < 0 ∨ 100 < q <;>
    simp [validateWith, validate_all_settings, btWithDowning, errorsOf, h, ht, hb, hs,
      hmc, hv, CopyTradingConfig.default, TimerConfig.default]

lemma validateWith_buyConfidence (q : ℚ) :
    errorsOf (validateWith BasicTradingConfig.default AdvancedFilterSettings.default
        (advWithBuyConfidence q))
      = if q < 0 ∨ 1 < q
        then [ConfigError.invalidPercentage "MIN_BUY_CONFIDENCE" (q * 100)]
        else [] := by
  have ht : ¬ (BasicTradingConfig.default.threshold_sell ≤
      BasicTradingConfig.default.threshold_buy) := by decide
  have hd : ¬ (BasicTradingConfig.default.downing_percent < 0 ∨
      100 < BasicTradingConfig.default.downing_percent) := by decide
  have hs : ¬ (AdvancedConfig.default.min_sell_confidence < 0 ∨
      1 < AdvancedConfig.default.min_sell_confidence) := by decide
  have hmc : ¬ (AdvancedFilterSettings.default.max_market_cap <
      AdvancedFilterSettings.default.min_market_cap) := by decide
  have hv : ¬ (AdvancedFilterSettings.default.max_volume <
      AdvancedFilterSettings.default.min_volume) := by decide
  by_cases h : q < 0 ∨ 1 < q <;>
    simp [validateWith, validate_all_settings, advWithBuyConfidence, errorsOf, h, ht, hd,
      hs, hmc, hv, CopyTradingConfig.default, TimerConfig.default]

lemma validateWith_sellConfidence (q : ℚ) :
    errorsOf (validateWith BasicTradingConfig.default AdvancedFilterSettings.default
        (advWithSellConfidence q))
      = if q < 0 ∨ 1 < q
        then [ConfigError.invalidPercentage "MIN_SELL_CONFIDENCE" (q * 100)]
        else [] := by
  have ht : ¬ (BasicTradingConfig.default.threshold_sell ≤
      BasicTradingConfig.default.threshold_buy) := by decide
  have hd : ¬ (BasicTradingConfig.default.downing_percent < 0 ∨
      100 < BasicTradingConfig.default.downing_percent) := by decide
  have hb : ¬ (AdvancedConfig.default.min_buy_confidence < 0 ∨
      1 < AdvancedConfig.default.min_buy_confidence) := by decide
  have hmc : ¬ (AdvancedFilterSettings.default.max_market_cap <
      AdvancedFilterSettings.default.min_market_cap) := by decide
  have hv : ¬ (AdvancedFilterSettings.default.max_volume <
      AdvancedFilterSettings.default.min_volume) := by decide
  by_cases h : q < 0 ∨ 1 < q <;>
    simp [validateWith, validate_all_settings, advWithSellConfidence, errorsOf, h, ht,
      hd, hb, hmc, hv, CopyTradingConfig.default, TimerConfig.default]

lemma validateWith_afBounds (mcmin mcmax volmin volmax : ℚ) :
    errorsOf (validateWith BasicTradingConfig.default
        (afWithBounds mcmin mcmax volmin volmax) AdvancedConfig.default)
      = (if mcmax < mcmin
          then [ConfigError.validationError "MARKET_CAP" "min cannot be greater than max"]
          else [])
        ++ (if volmax < volmin
          then [ConfigError.validationError "VOLUME" "min cannot be greater than max"]
          else []) := by
  have ht : ¬ (BasicTradingConfig.default.threshold_sell ≤
      BasicTradingConfig.default.threshold_buy) := by decide
  have hd : ¬ (BasicTradingConfig.default.downing_percent < 0 ∨
      100 < BasicTradingConfig.default.downing_percent) := by decide
  have hb : ¬ (AdvancedConfig.default.min_buy_confidence < 0 ∨
      1 < AdvancedConfig.default.min_buy_confidence) := by decide
  have hs : ¬ (AdvancedConfig.default.min_sell_confidence < 0 ∨
      1 < AdvancedConfig.default.min_sell_confidence) := by decide
  by_cases h1 : mcmax < mcmin <;> by_cases h2 : volmax < volmin <;>
    simp [validateWith, validate_all_settings, afWithBounds, errorsOf, h1, h2, ht, hd,
      hb, hs, CopyTradingConfig.default, TimerConfig.default]

/-- C1: the Validator reports a threshold-ordering violation exactly when the
buy-side threshold is greater than or equal to the sell-side threshold; with
buy 5_000_000_000 and sell 3_000_000_000 exactly one such violation is
reported, and with buy 3_000_000_000 and sell 10_000_000_000 none. -/
theorem c1_threshold_ordering :
    (∀ buy sell : Nat,
      (errorsOf (validateWith (btWith buy sell) AdvancedFilterSettings.default
          AdvancedConfig.default)).count (ConfigError.invalidThresholds buy sell)
        = if sell ≤ buy then 1 else 0)
    ∧ (errorsOf (validateWith (btWith 5000000000 3000000000)
        AdvancedFilterSettings.default AdvancedConfig.default)).count
        (ConfigError.invalidThresholds 5000000000 3000000000) = 1
    ∧ (errorsOf (validateWith (btWith 3000000000 10000000000)
        AdvancedFilterSettings.default AdvancedConfig.default)).count
        (ConfigError.invalidThresholds 3000000000 10000000000) = 0 := by
  refine ⟨?_, by decide, by decide⟩
  intro buy sell
  rw [validateWith_btWith]
  by_cases h : sell ≤ buy <;> simp [h]

/-- C3: the all-defaults configuration passes the Validator with zero
violations. -/
theorem c3_defaults_pass_validation :
    validate_all_settings BasicTradingConfig.default JitoConfig.default
      AdvancedFilterSettings.default CopyTradingConfig.default
      PrivateLogicConfig.default TimerConfig.default AdvancedConfig.default
      = Except.ok () := by decide

/-- C4 counterexample: a configuration whose market-cap bounds are equal and
whose volume bounds are equal (min greater than or equal to max for both
pairs) passes the Validator with no violation at all, refuting the claim that
every configuration with min greater than or equal to max is flagged. -/
theorem c4_equal_bounds_unflagged :
    afEqualBounds.min_market_cap = afEqualBounds.max_market_cap
    ∧ afEqualBounds.min_volume = afEqualBounds.max_volume
    ∧ validate_all_settings BasicTradingConfig.default JitoConfig.default
        afEqualBounds CopyTradingConfig.default PrivateLogicConfig.default
        TimerConfig.default AdvancedConfig.default = Except.ok () := by decide

/-- C4 as amended: for the market-cap pair and the volume pair the Validator
reports a min/max ordering violation exactly when min is strictly greater
than max; equal bounds are accepted. -/
theorem c4_minmax_strictly_greater :
    ∀ mcmin mcmax volmin volmax : ℚ,
      (errorsOf (validateWith BasicTradingConfig.default
          (afWithBounds mcmin mcmax volmin volmax) AdvancedConfig.default)).count
          (ConfigError.validationError "MARKET_CAP" "min cannot be greater than max")
        = (if mcmax < mcmin then 1 else 0)
      ∧ (errorsOf (validateWith BasicTradingConfig.default
          (afWithBounds mcmin mcmax volmin volmax) AdvancedConfig.default)).count
          (ConfigError.validationError "VOLUME" "min cannot be greater than max")
        = (if volmax < volmin then 1 else 0) := by
  intro mcmin mcmax volmin volmax
  rw [validateWith_afBounds]
  by_cases h1 : mcmax < mcmin <;> by_cases h2 : volmax < volmin <;>
    simp [h1, h2]

/-- C5: evaluation of the time-format check at the specified inputs: the three
accepted forms are accepted and three of the four rejected forms are
rejected, but the single-digit minute string 12:3 is accepted by the code
(its own unit test asserts it must be rejected). -/
theorem c5_time_format_eval :
    Config.is_valid_time_format "00:00" = true
    ∧ Config.is_valid_time_format "12:30" = true
    ∧ Config.is_valid_time_format "23:59" = true
    ∧ Config.is_valid_time_format "24:00" = false
    ∧ Config.is_valid_time_format "12:60" = false
    ∧ Config.is_valid_time_format "123:30" = false
    ∧ Config.is_valid_time_format "12:3" = true := by decide

lemma unwrapOr_pfv (env : Env) (key : String) (d mn mx : ℚ) :
    unwrapOr (parse_f64_env_with_validation env key d mn mx) d
      = if parse_f64_env env key d < mn ∨ mx < parse_f64_env env key d then d
        else parse_f64_env env key d := by
  simp only [parse_f64_env_with_validation]
  split <;> simp [unwrapOr]

/-- C2: each primitive parser yields exactly the looked-up value when it
converts and the documented default when the variable is absent or the value
does not convert, and it never fails; consequently every one of the 12
category loaders, run with no environment variable set, returns exactly the
default record of its category. -/
theorem c2_parser_fallback_and_loader_defaults :
    (∀ (env : Env) (key : String) (d : Nat),
      parse_u64_env env key d = ((env key).bind parseU64Str).getD d)
    ∧ (∀ (env : Env) (key : String) (d : ℚ),
      parse_f64_env env key d = ((env key).bind parseF64Str).getD d)
    ∧ (∀ (env : Env) (key : String) (d : Int),
      parse_i32_env env key d = ((env key).bind parseI32Str).getD d)
    ∧ (∀ (env : Env) (key : String) (d : Bool),
      parse_bool_env env key d = ((env key).bind parseBoolStr).getD d)
    ∧ load_basic_trading_settings emptyEnv = BasicTradingConfig.default
    ∧ load_jito_settings emptyEnv = JitoConfig.default
    ∧ load_zero_slot_settings emptyEnv = ZeroSlotConfig.default
    ∧ load_nozomi_settings emptyEnv = NozomiConfig.default
    ∧ load_blox_route_settings emptyEnv = BloxRouteConfig.default
    ∧ load_advanced_filter_settings emptyEnv = AdvancedFilterSettings.default
    ∧ load_copy_trading_settings emptyEnv = CopyTradingConfig.default
    ∧ load_private_logic_settings emptyEnv = PrivateLogicConfig.default
    ∧ load_inverse_buy_settings emptyEnv = InverseBuyConfig.default
    ∧ load_timer_settings emptyEnv = TimerConfig.default
    ∧ load_mode_settings emptyEnv = ModeConfig.default
    ∧ load_advanced_settings emptyEnv = AdvancedConfig.default := by
  refine ⟨?_, ?_, ?_, ?_, by decide, by decide, by decide, by decide, by decide,
    by decide, by decide, by decide, by decide, by decide, by decide, by decide⟩
  · intro env key d
    cases h : env key
    · simp [parse_u64_env, h, (by decide : parseU64Str "" = none)]
    · simp [parse_u64_env, h]
  · intro env key d
    cases h : env key
    · simp [parse_f64_env, h, (by decide : parseF64Str "" = none)]
    · simp [parse_f64_env, h]
  · intro env key d
    cases h : env key
    · simp [parse_i32_env, h, (by decide : parseI32Str "" = none)]
    · simp [parse_i32_env, h]
  · intro env key d
    cases h : env key
    · simp [parse_bool_env, h, (by decide : parseBoolStr "" = none)]
    · simp [parse_bool_env, h]

/-- C6: each percentage-typed bound check over the closed interval 0 to 100
(the downing percent in the Validator and the bound used for every staged-exit
stage percentage at load time) and each confidence check over the closed
interval 0 to 1 produces exactly one violation for the offending field when
the value lies strictly outside the interval and none when it lies inside,
the endpoints included. -/
theorem c6_inclusive_interval_checks :
    (∀ q : ℚ, percentErrCount (errorsOf (validateWith (btWithDowning q)
        AdvancedFilterSettings.default AdvancedConfig.default)) "DOWNING_PERCENT"
      = if q < 0 ∨ 100 < q then 1 else 0)
    ∧ (∀ q : ℚ, percentErrCount (errorsOf (validateWith BasicTradingConfig.default
        AdvancedFilterSettings.default (advWithBuyConfidence q))) "MIN_BUY_CONFIDENCE"
      = if q < 0 ∨ 1 < q then 1 else 0)
    ∧ (∀ q : ℚ, percentErrCount (errorsOf (validateWith BasicTradingConfig.default
        AdvancedFilterSettings.default (advWithSellConfidence q))) "MIN_SELL_CONFIDENCE"
      = if q < 0 ∨ 1 < q then 1 else 0)
    ∧ (∀ (env : Env) (key : String) (d : ℚ),
        parse_f64_env_with_validation env key d 0 100
          = if parse_f64_env env key d < 0 ∨ 100 < parse_f64_env env key d
            then Except.error (ConfigError.invalidPercentage key (parse_f64_env env key d))
            else Except.ok (parse_f64_env env key d)) := by
  refine ⟨?_, ?_, ?_, ?_⟩
  · intro q
    rw [validateWith_downing]
    by_cases h : q < 0 ∨ 100 < q <;> simp [h, percentErrCount]
  · intro q
    rw [validateWith_buyConfidence]
    by_cases h : q < 0 ∨ 1 < q <;> simp [h, percentErrCount]
  · intro q
    rw [validateWith_sellConfidence]
    by_cases h : q < 0 ∨ 1 < q <;> simp [h, percentErrCount]
  · intro env key d
    rfl

/-- C7 counterexample: with BUY_SELL_PERCENT set to the out-of-range 150.0
the bounded parser does return a typed range violation and the loader does
fall back to the default, but the violation is discarded: the loaded records
are the defaults and the full validation pass reports no diagnostic at all,
so the violation is never recorded. -/
theorem c7_range_violation_dropped :
    parse_f64_env_with_validation env150 "BUY_SELL_PERCENT"
        CopyTradingConfig.default.buy_sell_percent 0 100
      = Except.error (ConfigError.invalidPercentage "BUY_SELL_PERCENT" 150)
    ∧ load_copy_trading_settings env150 = CopyTradingConfig.default
    ∧ validate_all_settings (load_basic_trading_settings env150)
        (load_jito_settings env150) (load_advanced_filter_settings env150)
        (load_copy_trading_settings env150) (load_private_logic_settings env150)
        (load_timer_settings env150) (load_advanced_settings env150)
      = Except.ok () := by decide

/-- C7 as amended: the bounded parser returns a typed range violation exactly
when the looked-up-or-defaulted value lies outside the closed interval, and
the unchanged value otherwise (it never clamps); every call site falls back
to the field's documented default on a violation, and the violation is
discarded rather than recorded as a diagnostic. -/
theorem c7_bounded_parser_behaviour :
    (∀ (env : Env) (key : String) (d mn mx : ℚ),
      parse_f64_env_with_validation env key d mn mx
        = if parse_f64_env env key d < mn ∨ mx < parse_f64_env env key d
          then Except.error (ConfigError.invalidPercentage key (parse_f64_env env key d))
          else Except.ok (parse_f64_env env key d))
    ∧ (∀ env : Env,
      (load_copy_trading_settings env).buy_sell_percent
        = if parse_f64_env env "BUY_SELL_PERCENT" CopyTradingConfig.default.buy_sell_percent < 0
            ∨ 100 < parse_f64_env env "BUY_SELL_PERCENT" CopyTradingConfig.default.buy_sell_percent
          then CopyTradingConfig.default.buy_sell_percent
          else parse_f64_env env "BUY_SELL_PERCENT" CopyTradingConfig.default.buy_sell_percent)
    ∧ (∀ env : Env,
      (load_private_logic_settings env).stage_1_percent
        = if parse_f64_env env "PL_STAGE_1_PERCENT" PrivateLogicConfig.default.stage_1_percent < 0
            ∨ 100 < parse_f64_env env "PL_STAGE_1_PERCENT" PrivateLogicConfig.default.stage_1_percent
          then PrivateLogicConfig.default.stage_1_percent
          else parse_f64_env env "PL_STAGE_1_PERCENT" PrivateLogicConfig.default.stage_1_percent)
    ∧ (∀ env : Env,
      (load_private_logic_settings env).stage_2_percent
        = if parse_f64_env env "PL_STAGE_2_PERCENT" PrivateLogicConfig.default.stage_2_percent < 0
            ∨ 100 < parse_f64_env env "PL_STAGE_2_PERCENT" PrivateLogicConfig.default.stage_2_percent
          then PrivateLogicConfig.default.stage_2_percent
          else parse_f64_env env "PL_STAGE_2_PERCENT" PrivateLogicConfig.default.stage_2_percent)
    ∧ (∀ env : Env,
      (load_private_logic_settings env).stage_3_percent
        = if parse_f64_env env "PL_STAGE_3_PERCENT" PrivateLogicConfig.default.stage_3_percent < 0
            ∨ 100 < parse_f64_env env "PL_STAGE_3_PERCENT" PrivateLogicConfig.default.stage_3_percent
          then PrivateLogicConfig.default.stage_3_percent
          else parse_f64_env env "PL_STAGE_3_PERCENT" PrivateLogicConfig.default.stage_3_percent)
    ∧ (∀ env : Env,
      (load_private_logic_settings env).stage_4_percent
        = if parse_f64_env env "PL_STAGE_4_PERCENT" PrivateLogicConfig.default.stage_4_percent < 0
            ∨ 100 < parse_f64_env env "PL_STAGE_4_PERCENT" PrivateLogicConfig.default.stage_4_percent
          then PrivateLogicConfig.default.stage_4_percent
          else parse_f64_env env "PL_STAGE_4_PERCENT" PrivateLogicConfig.default.stage_4_percent)
    ∧ (∀ env : Env,
      (load_private_logic_settings env).stage_5_percent
        = if parse_f64_env env "PL_STAGE_5_PERCENT" PrivateLogicConfig.default.stage_5_percent < 0
            ∨ 100 < parse_f64_env env "PL_STAGE_5_PERCENT" PrivateLogicConfig.default.stage_5_percent
          then PrivateLogicConfig.default.stage_5_percent
          else parse_f64_env env "PL_STAGE_5_PERCENT" PrivateLogicConfig.default.stage_5_percent)
    ∧ (∀ env : Env,
      (load_private_logic_settings env).stage_6_percent
        = if parse_f64_env env "PL_STAGE_6_PERCENT" PrivateLogicConfig.default.stage_6_percent < 0
            ∨ 100 < parse_f64_env env "PL_STAGE_6_PERCENT" PrivateLogicConfig.default.stage_6_percent
          then PrivateLogicConfig.default.stage_6_percent
          else parse_f64_env env "PL_STAGE_6_PERCENT" PrivateLogicConfig.default.stage_6_percent)
    ∧ (∀ env : Env,
      (load_private_logic_settings env).stage_7_percent
        = if parse_f64_env env "PL_STAGE_7_PERCENT" PrivateLogicConfig.default.stage_7_percent < 0
            ∨ 100 < parse_f64_env env "PL_STAGE_7_PERCENT" PrivateLogicConfig.default.stage_7_percent
          then PrivateLogicConfig.default.stage_7_percent
          else parse_f64_env env "PL_STAGE_7_PERCENT" PrivateLogicConfig.default.stage_7_percent)
    ∧ (∀ env : Env,
      (load_advanced_settings env).min_buy_confidence
        = if parse_f64_env env "MIN_BUY_CONFIDENCE" AdvancedConfig.default.min_buy_confidence < 0
            ∨ 1 < parse_f64_env env "MIN_BUY_CONFIDENCE" AdvancedConfig.default.min_buy_confidence
          then AdvancedConfig.default.min_buy_confidence
          else parse_f64_env env "MIN_BUY_CONFIDENCE" AdvancedConfig.default.min_buy_confidence)
    ∧ (∀ env : Env,
      (load_advanced_settings env).min_sell_confidence
        = if parse_f64_env env "MIN_SELL_CONFIDENCE" AdvancedConfig.default.min_sell_confidence < 0
            ∨ 1 < parse_f64_env env "MIN_SELL_CONFIDENCE" AdvancedConfig.default.min_sell_confidence
          then AdvancedConfig.default.min_sell_confidence
          else parse_f64_env env "MIN_SELL_CONFIDENCE" AdvancedConfig.default.min_sell_confidence) := by
  refine ⟨fun env key d mn mx => rfl, ?_, ?_, ?_, ?_, ?_, ?_, ?_, ?_, ?_, ?_⟩ <;>
    intro env <;>
    simp [load_copy_trading_settings, load_private_logic_settings,
      load_advanced_settings, unwrapOr_pfv]

/-- C8: the target-wallet loader splits the single environment value on
commas and trims whitespace around each element, preserving order; an unset
or empty value yields the empty list. -/
theorem c8_target_wallet_list :
    (load_copy_trading_settings (env1 "TARGET_WALLETS" "wallet1, wallet2 ,wallet3")).target_wallets
      = ["wallet1", "wallet2", "wallet3"]
    ∧ (load_copy_trading_settings emptyEnv).target_wallets = []
    ∧ (load_copy_trading_settings (env1 "TARGET_WALLETS" "")).target_wallets = []
    ∧ (∀ s : String,
        (load_copy_trading_settings (env1 "TARGET_WALLETS" s)).target_wallets
          = if s = "" then []
            else (splitOnChar ',' s.data).map (fun cs => rustTrim (String.mk cs))) := by
  refine ⟨by decide, by decide, by decide, ?_⟩
  intro s
  simp [load_copy_trading_settings, env1]

/-- C9: exporting the tunable category records of the all-defaults aggregate
to the persisted document and re-loading every category from that document
through the same field mapping reproduces exactly the original records. -/
theorem c9_export_roundtrip_defaults :
    importBasicTrading (docSection defaultConfigDocument "basic_trading")
        = BasicTradingConfig.default
    ∧ importJito (docSection defaultConfigDocument "jito") = JitoConfig.default
    ∧ importZeroSlot (docSection defaultConfigDocument "zero_slot") = ZeroSlotConfig.default
    ∧ importNozomi (docSection defaultConfigDocument "nozomi") = NozomiConfig.default
    ∧ importBloxRoute (docSection defaultConfigDocument "blox_route") = BloxRouteConfig.default
    ∧ importAdvancedFilters (docSection defaultConfigDocument "advanced_filters")
        = AdvancedFilterSettings.default
    ∧ importCopyTrading (docSection defaultConfigDocument "copy_trading")
        = CopyTradingConfig.default
    ∧ importPrivateLogic (docSection defaultConfigDocument "private_logic")
        = PrivateLogicConfig.default
    ∧ importInverseBuy (docSection defaultConfigDocument "inverse_buy")
        = InverseBuyConfig.default
    ∧ importTimer (docSection defaultConfigDocument "timer") = TimerConfig.default
    ∧ importMode (docSection defaultConfigDocument "mode") = ModeConfig.default
    ∧ importAdvanced (docSection defaultConfigDocument "advanced")
        = AdvancedConfig.default := by decide

/-- C10: whatever the environment holds, the timer record the loader produces
carries start and stop time strings that satisfy the time-format check: a
value failing the check is replaced at load time by the default 00:00 or
23:59 respectively. -/
theorem c10_timer_times_always_valid :
    ∀ env : Env,
      Config.is_valid_time_format (load_timer_settings env).start_time = true
      ∧ Config.is_valid_time_format (load_timer_settings env).stop_time = true := by
  intro env
  constructor
  · cases hv : Config.is_valid_time_format ((env "BOT_START_TIME").getD "00:00")
    · simp [load_timer_settings, parse_time_format_env, unwrapOr, hv,
        TimerConfig.default, (by decide : Config.is_valid_time_format "00:00" = true)]
    · simp [load_timer_settings, parse_time_format_env, unwrapOr, hv,
        TimerConfig.default]
  · cases hv : Config.is_valid_time_format ((env "BOT_STOP_TIME").getD "23:59")
    · simp [load_timer_settings, parse_time_format_env, unwrapOr, hv,
        TimerConfig.default, (by decide : Config.is_valid_time_format "23:59" = true)]
    · simp [load_timer_settings, parse_time_format_env, unwrapOr, hv,
        TimerConfig.default]
